import Mathlib

/-!
Verification of the self-healing test-framework core (healing engine,
AI strategy generation, UI healing strategies, and the execution wrapper)
against its natural-language specification.  JavaScript sources are
shallowly embedded: numbers are modelled as rationals, JS `Map`s as
association lists with JS insertion-order semantics, thrown exceptions as
`Except`, and external collaborators (the AI backend, live page handles)
as explicit parameters describing their observable outcomes.
-/

namespace SelfHealing

/-- JS truthiness fallback for numbers: `x || d` yields `d` when `x` is
`undefined`/`null` (here `none`) or `0` (both falsy in JS). -/
def jsOrNum (x : Option ℚ) (d : ℚ) : ℚ :=
  match x with
  | none => d
  | some v => if v = 0 then d else v

/-- JS truthiness fallback for strings: `s || d` yields `d` when `s` is
absent or the empty string. -/
def jsOrStr (x : Option String) (d : String) : String :=
  match x with
  | none => d
  | some s => if s = "" then d else s

/-- JS string truthiness: a present, non-empty string. -/
def strTruthy (x : Option String) : Bool :=
  match x with
  | none => false
  | some s => s ≠ ""

/-- Substring check on character lists (`String.prototype.includes`). -/
def infixCheck (pat : List Char) : List Char → Bool
  | [] => pat.isEmpty
  | c :: rest => pat.isPrefixOf (c :: rest) || infixCheck pat rest

/-- `s.includes(pat)` from JS, on Lean strings. -/
def includes (s pat : String) : Bool := infixCheck pat.toList s.toList

/-- `String.prototype.toLowerCase` (ASCII case folding, per-character). -/
def toLowerCase (s : String) : String := String.mk (s.data.map Char.toLower)

/-- `String.prototype.startsWith`, on character lists. -/
def strStartsWith (s pre : String) : Bool := pre.toList.isPrefixOf s.toList

/-- `String.prototype.substring(n)`, on character lists. -/
def strDrop (s : String) (n : Nat) : String := String.mk (s.toList.drop n)

/-! ### JS `Map` as an association list

`new Map()` preserves insertion order; `set` on an existing key replaces
the value in place, otherwise appends. -/

/-- `Map.prototype.get`. -/
def mapGet {α : Type} (m : List (String × α)) (k : String) : Option α :=
  match m.find? (fun kv => kv.1 == k) with
  | some kv => some kv.2
  | none => none

/-- `Map.prototype.set`: replace in place when the key exists, else append. -/
def mapSet {α : Type} (m : List (String × α)) (k : String) (v : α) :
    List (String × α) :=
  match m with
  | [] => [(k, v)]
  | kv :: rest => if kv.1 == k then (k, v) :: rest else kv :: mapSet rest k v

/-- `Map.prototype.has`. -/
def mapHas {α : Type} (m : List (String × α)) (k : String) : Bool :=
  (mapGet m k).isSome

/-- `new Map(entries)`: inserts the entries left to right. -/
def jsMapOfEntries {α : Type} (entries : List (String × α)) :
    List (String × α) :=
  entries.foldl (fun m kv => mapSet m kv.1 kv.2) []

/-! ### Error classification (`HealingEngine.classifyError`) -/

/-- Translation of `HealingEngine.classifyError` (HealingEngine.js
lines 145-177): case-insensitive substring tests in the source's order,
first match winning. -/
def classifyError (msg : String) : String :=
  let errorMessage := toLowerCase msg
  if includes errorMessage "element not found" || includes errorMessage "selector" then
    "locator_failure"
  else if includes errorMessage "timeout" || includes errorMessage "wait" then
    "wait_failure"
  else if includes errorMessage "not visible" || includes errorMessage "not clickable" then
    "element_state_failure"
  else if includes errorMessage "navigation" || includes errorMessage "page not found" then
    "navigation_failure"
  else if includes errorMessage "api" || includes errorMessage "endpoint" then
    "api_failure"
  else if includes errorMessage "assertion" || includes errorMessage "expect" then
    "assertion_failure"
  else if includes errorMessage "network" || includes errorMessage "connection" then
    "network_failure"
  else
    "unknown_failure"

/-- The spec's classification table: classes in priority order, each with
its substring patterns (spec section 3, "Error Classification"). -/
def classificationTable : List (String × List String) :=
  [("locator_failure", ["element not found", "selector"]),
   ("wait_failure", ["timeout", "wait"]),
   ("element_state_failure", ["not visible", "not clickable"]),
   ("navigation_failure", ["navigation", "page not found"]),
   ("api_failure", ["api", "endpoint"]),
   ("assertion_failure", ["assertion", "expect"]),
   ("network_failure", ["network", "connection"])]

/-- First-match-wins classification over an ordered table, as the spec
words it: "evaluated in a fixed priority order ...; first match wins". -/
def firstMatch (m : String) : List (String × List String) → String
  | [] => "unknown_failure"
  | (name, pats) :: rest =>
      if pats.any (fun pat => includes m pat) then name else firstMatch m rest

/-- Spec-worded classifier: case-fold once, then first match over the
priority-ordered table. -/
def classifyFirstMatch (msg : String) : String :=
  firstMatch (toLowerCase msg) classificationTable

/-- The eight classification values of the data model. -/
def classificationValues : List String :=
  ["locator_failure", "wait_failure", "element_state_failure",
   "navigation_failure", "api_failure", "assertion_failure",
   "network_failure", "unknown_failure"]

/-! ### Healable-error allow-list (`BaseFramework.isHealableError`) -/

/-- Translation of `BaseFramework.isHealableError` (BaseFramework.js
lines 168-182). -/
def isHealableError (msg : String) : Bool :=
  ["element not found", "timeout", "selector not found", "network error",
   "assertion failed", "element not visible", "element not clickable"].any
    (fun pat => includes (toLowerCase msg) pat)

/-! ### Data model -/

/-- A context object as passed around in JS: every field may be absent
(`undefined`). `entry.context?.testType === context.testType` compares two
possibly-undefined values, which is equality of `Option String`. -/
structure JsCtx where
  testType : Option String := none
  pageUrl : Option String := none
  element : Option String := none
  action : Option String := none
  userAgent : Option String := none
  deriving Repr, DecidableEq

/-- `extractContextData` output (HealingEngine.js lines 182-192): every
field defaulted. The viewport object is not modelled (never read). -/
structure CtxData where
  testType : String
  pageUrl : String
  element : String
  action : String
  timestamp : Nat
  userAgent : String
  deriving Repr, DecidableEq

/-- A strategy candidate as it flows through the engine. `score` is
absent until `rankStrategies` spreads it in. -/
structure Strategy where
  strategy : String
  description : Option String := none
  implementation : Option String := none
  confidence : Option ℚ := none
  source : Option String := none
  score : Option ℚ := none
  deriving Repr, DecidableEq

/-- A learned pattern entry (`this.patterns` values). -/
structure Pattern where
  name : String
  description : Option String := none
  implementation : Option String := none
  successCount : Nat
  totalCount : Nat
  successRate : ℚ
  deriving Repr, DecidableEq

/-- A healing-history entry as pushed by `recordSuccessfulHealing`.
`result` is not modelled field-by-field; `context` is the entry's
`context` property (`result.context || {}` at creation). -/
structure HistEntry where
  timestamp : Nat
  strategy : String
  success : Bool
  context : Option JsCtx := none
  deriving Repr, DecidableEq

/-- The result object returned by strategy execution and by
`applyHealing`. -/
structure StratResult where
  success : Bool
  error : Option String := none
  strategy : Option String := none
  strategies : Option (List String) := none
  context : Option JsCtx := none
  changes : Option (List String) := none
  deriving Repr, DecidableEq

/-- The engine's mutable learning state: healing history, pattern table
and smoothed success-rate table. -/
structure EngineState where
  healingHistory : List HistEntry := []
  patterns : List (String × Pattern) := []
  successRates : List (String × ℚ) := []
  deriving Repr, DecidableEq

/-! ### Scoring and ranking (`HealingEngine`) -/

/-- `HealingEngine.calculateContextSimilarity` (lines 287-294): 0.8 when
some history entry shares `testType` and `pageUrl` with the current
context (via optional chaining), else 0.3. `filter ... length > 0` is
`any`. -/
def calculateContextSimilarity (hist : List HistEntry) (c : JsCtx) : ℚ :=
  if hist.any (fun e =>
      (e.context.bind (·.testType)) == c.testType &&
      (e.context.bind (·.pageUrl)) == c.pageUrl) then
    0.8
  else 0.3

/-- `HealingEngine.calculateStrategyScore` (lines 270-282):
`(confidence || 50) + (successRates.get(name) || 0.5) * 30 +
similarity * 20`, upper-clamped by `Math.min(100, score)`. -/
def calculateStrategyScore (st : EngineState) (s : Strategy) (c : JsCtx) : ℚ :=
  let score := jsOrNum s.confidence 50
  let historicalRate := jsOrNum (mapGet st.successRates s.strategy) 0.5
  let score := score + historicalRate * 30
  let contextSimilarity := calculateContextSimilarity st.healingHistory c
  let score := score + contextSimilarity * 20
  min 100 score

/-- Descending-score comparison used by the JS sort comparator
`(a, b) => b.score - a.score`. -/
def scoreLE (a b : Strategy) : Bool :=
  decide (b.score.getD 0 ≤ a.score.getD 0)

/-- `HealingEngine.rankStrategies` (lines 258-265): spread in the score,
then sort descending. JS `Array.prototype.sort` is stable (ES2019), so a
stable merge sort models it. -/
def rankStrategies (st : EngineState) (strategies : List Strategy) (c : JsCtx) :
    List Strategy :=
  (strategies.map (fun s => { s with score := some (calculateStrategyScore st s c) })).mergeSort
    scoreLE

/-! ### Learning updates (`HealingEngine`) -/

/-- `HealingEngine.updatePatterns` (lines 391-413): create the entry on
first sight (counts 0, rate 0.5), then bump `totalCount`, bump
`successCount` on success, and recompute `successRate` as the true
ratio. -/
def updatePatterns (strategy : Strategy) (success : Bool)
    (pats : List (String × Pattern)) : List (String × Pattern) :=
  let patternKey := strategy.strategy
  let pats :=
    if mapHas pats patternKey then pats
    else
      mapSet pats patternKey
        { name := strategy.strategy, description := strategy.description,
          implementation := strategy.implementation,
          successCount := 0, totalCount := 0, successRate := 0.5 }
  match mapGet pats patternKey with
  | none => pats
  | some p =>
      let p := { p with totalCount := p.totalCount + 1 }
      let p := if success then { p with successCount := p.successCount + 1 } else p
      let p := { p with successRate := (p.successCount : ℚ) / (p.totalCount : ℚ) }
      mapSet pats patternKey p

/-- `HealingEngine.recordSuccessfulHealing` (lines 368-386): append a
history entry, pull the smoothed rate halfway to 1
(`(rate || 0.5 + 1) / 2`), and update the pattern table with a success. -/
def recordSuccessfulHealing (strategy : Strategy) (result : StratResult)
    (now : Nat) (st : EngineState) : EngineState :=
  let healingRecord : HistEntry :=
    { timestamp := now, strategy := strategy.strategy, success := true,
      context := some (result.context.getD {}) }
  let hist := st.healingHistory ++ [healingRecord]
  let currentRate := jsOrNum (mapGet st.successRates strategy.strategy) 0.5
  let newRate := (currentRate + 1) / 2
  let rates := mapSet st.successRates strategy.strategy newRate
  let pats := updatePatterns strategy true st.patterns
  { healingHistory := hist, patterns := pats, successRates := rates }

/-! ### The healing loop (`HealingEngine.applyHealing`, lines 70-96)

`executeHealingStrategy` dispatches to a UI/API executor and catches its
own exceptions; from `applyHealing`'s viewpoint an execution either
throws (caught by the loop's `catch`, treated as that strategy's
failure) or yields a result object. We model one execution as an
`Except String StratResult` supplied per strategy, and additionally
return the ordered list of strategies actually invoked. -/

/-- Loop body of `applyHealing`: `none` means the loop fell through. -/
def applyHealingGo (exec : Strategy → Except String StratResult) (now : Nat)
    (st : EngineState) :
    List Strategy → Option (StratResult × EngineState) × List Strategy
  | [] => (none, [])
  | s :: rest =>
    match exec s with
    | .error _ =>
        let r := applyHealingGo exec now st rest
        (r.1, s :: r.2)
    | .ok result =>
        if result.success then
          (some (result, recordSuccessfulHealing s result now st), [s])
        else
          let r := applyHealingGo exec now st rest
          (r.1, s :: r.2)

/-- `HealingEngine.applyHealing`: first success returns immediately after
recording; exhaustion returns the all-failed result listing
`strategies.map(s => s.strategy)`. Also returns the invocation trace. -/
def applyHealing (exec : Strategy → Except String StratResult) (now : Nat)
    (strategies : List Strategy) (st : EngineState) :
    StratResult × EngineState × List Strategy :=
  match applyHealingGo exec now st strategies with
  | (some (r, st2), attempted) => (r, st2, attempted)
  | (none, attempted) =>
      ({ success := false, error := some "All healing strategies failed",
         strategies := some (strategies.map (·.strategy)) }, st, attempted)

/-- Whether one modelled execution counts as a success for the loop. -/
def execSucceeds (exec : Strategy → Except String StratResult)
    (s : Strategy) : Bool :=
  match exec s with
  | .ok r => r.success
  | .error _ => false

/-! ### Persistence (`HealingEngine.saveHealingPatterns` /
`loadHealingPatterns`, lines 418-471) -/

/-- The persisted record shape. -/
structure PersistedData where
  patterns : List (String × Pattern)
  successRates : List (String × ℚ)
  healingHistory : List HistEntry
  lastUpdated : Nat
  deriving Repr, DecidableEq

/-- `saveHealingPatterns`: serialize the two maps as entry arrays and the
history truncated by `slice(-1000)` (the most recent 1000 entries). -/
def saveHealingPatterns (st : EngineState) (now : Nat) : PersistedData :=
  { patterns := st.patterns,
    successRates := st.successRates,
    healingHistory := st.healingHistory.drop (st.healingHistory.length - 1000),
    lastUpdated := now }

/-- `loadHealingPatterns`: rebuild the maps with `new Map(entries)` and
take the stored history verbatim. (Arrays are truthy in JS even when
empty, so all three `if (data.x)` guards pass for saved records.) -/
def loadHealingPatterns (d : PersistedData) (st : EngineState) : EngineState :=
  { st with
    patterns := jsMapOfEntries d.patterns,
    successRates := jsMapOfEntries d.successRates,
    healingHistory := d.healingHistory }

/-! ### AI integration (`AIIntegration`)

`callAI` is a network call to the language-model backend; we model its
outcome as an `Except`: a thrown error, or the response text together
with the outcome of `JSON.parse` on it (the JSON parser is a JS runtime
primitive, taken as given). -/

/-- Outcome of `JSON.parse(response)` followed by the `Array.isArray`
check in `parseHealingStrategies`. -/
inductive JsonParseResult
  | arr (xs : List Strategy)
  | nonArr
  | fail
  deriving Repr, DecidableEq

/-- JS line terminators, which `.` in a regex never matches. -/
def lineTerminator (c : Char) : Bool :=
  c = '\n' || c = '\r' || c = ' ' || c = ' '

/-- Matching semantics of a JS regex of the shape `/a.*b/i` applied via
`test`: some occurrence of `a`, then line-terminator-free filler, then an
occurrence of `b`. -/
def regexABCore (a b s : List Char) : Bool :=
  (List.range (s.length + 1)).any fun i =>
    a.isPrefixOf (s.drop i) &&
    ((List.range (s.length + 1)).any fun j =>
      decide (i + a.length ≤ j) && b.isPrefixOf (s.drop j) &&
      ((s.drop (i + a.length)).take (j - (i + a.length))).all
        (fun c => !lineTerminator c))

/-- `/a.*b/i.test(s)` for lowercase literals `a`, `b`. -/
def regexTest (a b : String) (s : String) : Bool :=
  regexABCore a.toList b.toList (toLowerCase s).toList

/-- The five `strategyPatterns` regexes of `parseHealingStrategies`
(AIIntegration source, lines 385-391), each as its two literal parts. -/
def strategyPatterns : List (String × String) :=
  [("locator", "healing"), ("wait", "strategy"), ("element", "state"),
   ("navigation", "healing"), ("data", "adjustment")]

/-- `AIIntegration.extractStrategyName`: note the source tests the
pattern against the literal strings "locator", "wait", ... (not against
the response), so for all five `strategyPatterns` it falls through to
"generic_healing". -/
def extractStrategyName (_response : String) (pat : String × String) : String :=
  if regexTest pat.1 pat.2 "locator" then "locator_healing"
  else if regexTest pat.1 pat.2 "wait" then "wait_healing"
  else if regexTest pat.1 pat.2 "element" then "element_state_healing"
  else if regexTest pat.1 pat.2 "navigation" then "navigation_healing"
  else if regexTest pat.1 pat.2 "data" then "data_healing"
  else "generic_healing"

/-- `AIIntegration.extractDescription`: first line of the response the
pattern matches, trimmed, else a default. -/
def extractDescription (response : String) (pat : String × String) : String :=
  match (response.splitOn "\n").find? (fun line => regexTest pat.1 pat.2 line) with
  | some line => line.trim
  | none => "AI-generated healing strategy"

/-- `AIIntegration.generateBasicImplementation`: same literal-string
tests as `extractStrategyName`, so it always yields the last default. -/
def generateBasicImplementation (pat : String × String) : String :=
  if regexTest pat.1 pat.2 "locator" then
    "return \x7b success: true, locator: \"#alternative-selector\" \x7d;"
  else if regexTest pat.1 pat.2 "wait" then
    "await page.waitForTimeout(2000); return \x7b success: true \x7d;"
  else if regexTest pat.1 pat.2 "element" then
    "await element.scrollIntoViewIfNeeded(); return \x7b success: true \x7d;"
  else if regexTest pat.1 pat.2 "navigation" then
    "await page.reload(); return \x7b success: true \x7d;"
  else if regexTest pat.1 pat.2 "data" then
    "return \x7b success: true, healedData: testData \x7d;"
  else "return \x7b success: true \x7d;"

/-- The fixed generic fallback of `parseHealingStrategies` (returned when
the response is unparseable and no strategy pattern matches the text):
locator and wait healing, confidence 60 each. -/
def genericFallback : List Strategy :=
  [{ strategy := "locator_healing",
     description := some "Try alternative locators",
     implementation := some "return \x7b success: true, locator: \"#alternative-selector\" \x7d;",
     confidence := some 60 },
   { strategy := "wait_healing",
     description := some "Add explicit wait",
     implementation := some "await page.waitForTimeout(2000); return \x7b success: true \x7d;",
     confidence := some 60 }]

/-- `AIIntegration.parseHealingStrategies` (lines 372-424): a JSON array
is taken as-is; parsed non-array JSON yields `[]`; a parse failure falls
back to regex extraction over the text, and to `genericFallback` when no
pattern matches. -/
def parseHealingStrategies (parsed : JsonParseResult) (response : String) :
    List Strategy :=
  match parsed with
  | .arr xs => xs
  | .nonArr => []
  | .fail =>
      let strategies := strategyPatterns.foldl
        (fun acc pat =>
          if regexTest pat.1 pat.2 response then
            acc ++ [{ strategy := extractStrategyName response pat,
                      description := some (extractDescription response pat),
                      implementation := some (generateBasicImplementation pat),
                      confidence := some 70 }]
          else acc) []
      if strategies.isEmpty then genericFallback else strategies

/-- An entry of the AI integration's own learning corpus
(`this.learningData`). -/
structure LearnEntry where
  patterns : Option (List String) := none
  success : Bool := false
  testContext : Option JsCtx := none
  deriving Repr, DecidableEq

/-- `AIIntegration.getHistoricalSuccessRate`: ratio over learning entries
whose pattern list mentions the strategy, defaulting to 0.5. -/
def getHistoricalSuccessRate (ld : List LearnEntry) (strategyType : String) : ℚ :=
  let relevantEntries := ld.filter (fun e => (e.patterns.getD []).contains strategyType)
  if relevantEntries.length = 0 then 0.5
  else ((relevantEntries.filter (·.success)).length : ℚ) / (relevantEntries.length : ℚ)

/-- `AIIntegration.calculateContextSimilarity` over learning data. -/
def aiCalculateContextSimilarity (ld : List LearnEntry) (c : JsCtx) : ℚ :=
  if ld.any (fun e =>
      (e.testContext.bind (·.testType)) == c.testType &&
      (e.testContext.bind (·.pageUrl)) == c.pageUrl) then
    0.8
  else 0.3

/-- `AIIntegration.calculateStrategyScore`: confidence plus 20 x history
plus 10 x similarity, upper-clamped at 100 (distinct weights from the
engine's). -/
def aiCalculateStrategyScore (ld : List LearnEntry) (s : Strategy) (c : JsCtx) : ℚ :=
  min 100 (jsOrNum s.confidence 50 + getHistoricalSuccessRate ld s.strategy * 20 +
    aiCalculateContextSimilarity ld c * 10)

/-- `AIIntegration.rankStrategies`: spread in the score, stable sort
descending. -/
def aiRankStrategies (ld : List LearnEntry) (strategies : List Strategy)
    (c : JsCtx) : List Strategy :=
  (strategies.map (fun s => { s with score := some (aiCalculateStrategyScore ld s c) })).mergeSort
    scoreLE

/-- `AIIntegration.generateHealingStrategies` (lines 104-118): on any
throw from `callAI` the catch returns `[]`; otherwise the response is
parsed and ranked. -/
def generateHealingStrategies (aiCall : Except String (JsonParseResult × String))
    (ld : List LearnEntry) (c : JsCtx) : List Strategy :=
  match aiCall with
  | .error _ => []
  | .ok pr => aiRankStrategies ld (parseHealingStrategies pr.1 pr.2) c

/-! ### Error analysis (`HealingEngine.analyzeError`, lines 43-65) -/

/-- `extractContextData` (lines 182-192). -/
def extractContextData (c : JsCtx) (now : Nat) : CtxData :=
  { testType := jsOrStr c.testType "ui",
    pageUrl := jsOrStr c.pageUrl "",
    element := jsOrStr c.element "",
    action := jsOrStr c.action "",
    timestamp := now,
    userAgent := jsOrStr c.userAgent "" }

/-- `extractDomain` (lines 247-253): `new URL(url).hostname` with
"unknown" when the URL constructor throws. URL parsing is a platform
primitive, supplied as the `hostname` function (`none` = throw). -/
def extractDomain (hostname : String → Option String) (url : String) : String :=
  (hostname url).getD "unknown"

/-- `findMatchingPatterns` (lines 222-242). -/
def findMatchingPatterns (hostname : String → Option String)
    (errorType : String) (c : CtxData) : List String :=
  let patterns := [errorType]
  let patterns := patterns ++
    (if c.testType = "ui" then ["ui_" ++ errorType]
     else if c.testType = "api" then ["api_" ++ errorType]
     else [])
  patterns ++
    (if c.pageUrl ≠ "" then [extractDomain hostname c.pageUrl ++ "_" ++ errorType]
     else [])

/-- `getPatternBasedStrategies` (lines 197-217): each matching pattern
with a stored entry becomes a candidate with confidence
`successRate * 100` and source "pattern". -/
def getPatternBasedStrategies (hostname : String → Option String)
    (errorType : String) (c : CtxData) (pats : List (String × Pattern)) :
    List Strategy :=
  (findMatchingPatterns hostname errorType c).foldl
    (fun acc key =>
      match mapGet pats key with
      | some strategy =>
          acc ++ [{ strategy := strategy.name,
                    description := strategy.description,
                    implementation := strategy.implementation,
                    confidence := some (strategy.successRate * 100),
                    source := some "pattern" }]
      | none => acc) []

/-- The `analyzeError` result object. -/
structure Analysis where
  errorType : String
  context : CtxData
  strategies : List Strategy
  timestamp : Nat
  deriving Repr, DecidableEq

/-- `HealingEngine.analyzeError`: classify, generate (AI + patterns),
concatenate and rank. The AI collaborator's strategies are ranked with
the raw context, as in the source. This function is total: collaborator
failure is absorbed inside `generateHealingStrategies`. -/
def analyzeError (hostname : String → Option String)
    (aiCall : Except String (JsonParseResult × String)) (ld : List LearnEntry)
    (errMsg : String) (rawCtx : JsCtx) (now : Nat) (st : EngineState) : Analysis :=
  let errorType := classifyError errMsg
  let contextData := extractContextData rawCtx now
  let aiStrategies := generateHealingStrategies aiCall ld rawCtx
  let patternStrategies := getPatternBasedStrategies hostname errorType contextData st.patterns
  let allStrategies := aiStrategies ++ patternStrategies
  let rankedStrategies := rankStrategies st allStrategies rawCtx
  { errorType := errorType, context := contextData,
    strategies := rankedStrategies, timestamp := now }

/-! ### Execution wrapper (`BaseFramework`, BaseFramework.js)

Errors are modelled by their message (the `HealableError` wrapper built
by `executeWithHealing` copies the original message, so the caught
error's message is the original's either way). Each iteration of
`attemptHealing`'s loop runs one full `analyzeError` + `applyHealing`
cycle; a cycle's observable outcome is one of: `analyzeError` threw,
`applyHealing` threw, or `applyHealing` returned a result object. -/

/-- Framework metrics. -/
structure Metrics where
  totalTests : Nat := 0
  healedTests : Nat := 0
  healingSuccessRate : ℚ := 0
  averageHealingTime : ℚ := 0
  deriving Repr, DecidableEq

/-- `BaseFramework.updateMetrics` (lines 222-225). (JS divides even when
`totalTests` is 0, giving NaN; rational division by zero gives 0. All
call sites in `executeTest` run after the `totalTests` increment.) -/
def updateMetrics (m : Metrics) (testDuration : ℚ) : Metrics :=
  { m with
    healingSuccessRate := (m.healedTests : ℚ) / (m.totalTests : ℚ) * 100,
    averageHealingTime := testDuration }

/-- Observable outcome of one analyze+apply healing cycle. -/
inductive CycleOutcome
  | analyzeThrow (msg : String)
  | applyThrow (msg : String)
  | applied (r : StratResult)
  deriving Repr, DecidableEq

/-- Trace of `BaseFramework.attemptHealing` (lines 114-163): the success
result if some cycle healed, plus how often the orchestrator's
`analyzeError` and `applyHealing` were invoked. -/
structure HealTrace where
  success : Option StratResult
  analyzeCalls : Nat
  applyCalls : Nat
  deriving Repr, DecidableEq

/-- The bounded retry loop of `attemptHealing`: at most `remaining`
cycles starting at attempt number `attempt`; a cycle whose
`applyHealing` result has `success: true` returns it immediately. -/
def attemptHealingAux (cycles : Nat → CycleOutcome) :
    Nat → Nat → HealTrace
  | _, 0 => { success := none, analyzeCalls := 0, applyCalls := 0 }
  | attempt, remaining + 1 =>
    match cycles attempt with
    | .analyzeThrow _ =>
        let t := attemptHealingAux cycles (attempt + 1) remaining
        { t with analyzeCalls := t.analyzeCalls + 1 }
    | .applyThrow _ =>
        let t := attemptHealingAux cycles (attempt + 1) remaining
        { t with analyzeCalls := t.analyzeCalls + 1, applyCalls := t.applyCalls + 1 }
    | .applied r =>
        if r.success then
          { success := some r, analyzeCalls := 1, applyCalls := 1 }
        else
          let t := attemptHealingAux cycles (attempt + 1) remaining
          { t with analyzeCalls := t.analyzeCalls + 1, applyCalls := t.applyCalls + 1 }

/-- `BaseFramework.attemptHealing` with `maxHealingAttempts` cycles. -/
def attemptHealing (maxHealingAttempts : Nat) (cycles : Nat → CycleOutcome) :
    HealTrace :=
  attemptHealingAux cycles 1 maxHealingAttempts

/-- What `executeTest` hands back to its caller. -/
inductive ExecResult (α : Type)
  | normal (v : α)
  | healed (r : StratResult)
  | thrown (msg : String)
  deriving Repr, DecidableEq

/-- Full observable outcome of one `executeTest` call. -/
structure ExecTrace (α : Type) where
  result : ExecResult α
  metrics : Metrics
  analyzeCalls : Nat
  applyCalls : Nat
  deriving Repr, DecidableEq

/-- `BaseFramework.executeTest` (lines 58-90): bump `totalTests`; on a
thrown test error, when healing is enabled, run `attemptHealing`
(unconditionally — `isHealableError` is consulted only inside
`executeWithHealing` to wrap the error, never to gate healing); bump
`healedTests` and return the healing result on success, otherwise
re-throw the caught error; the `finally` block updates the metrics.
Pre/post-test analysis catch their own failures and are not modelled. -/
def executeTest {α : Type} (enableHealing : Bool) (maxHealingAttempts : Nat)
    (cycles : Nat → CycleOutcome) (testOutcome : Except String α)
    (testDuration : ℚ) (m : Metrics) : ExecTrace α :=
  let m := { m with totalTests := m.totalTests + 1 }
  match testOutcome with
  | .ok v =>
      { result := .normal v, metrics := updateMetrics m testDuration,
        analyzeCalls := 0, applyCalls := 0 }
  | .error msg =>
      if enableHealing then
        let t := attemptHealing maxHealingAttempts cycles
        match t.success with
        | some r =>
            { result := .healed r,
              metrics := updateMetrics { m with healedTests := m.healedTests + 1 } testDuration,
              analyzeCalls := t.analyzeCalls, applyCalls := t.applyCalls }
        | none =>
            { result := .thrown msg, metrics := updateMetrics m testDuration,
              analyzeCalls := t.analyzeCalls, applyCalls := t.applyCalls }
      else
        { result := .thrown msg, metrics := updateMetrics m testDuration,
          analyzeCalls := 0, applyCalls := 0 }

/-! ### UI healing strategies (`UIFealingStrategies`)

Live-page sub-techniques are DOM calls against the application under
test; each is modelled by its outcome (`Except` = thrown), supplied in
the order the source tries them. The result record carries the union of
the fields the four methods can produce. -/

/-- Wait options record (`tryBasicWaitStrategies` and friends). -/
structure WaitOpts where
  timeout : Nat
  retries : Nat
  delay : Nat
  deriving Repr, DecidableEq

/-- An element descriptor inside `testData`. -/
structure JsElement where
  locator : Option String := none
  selector : Option String := none
  text : Option String := none
  deriving Repr, DecidableEq

/-- The test-data payload as the UI strategies read it. `page` records
whether a live page handle is present. -/
structure TestData where
  page : Bool := false
  element : Option JsElement := none
  url : Option String := none
  deriving Repr, DecidableEq

/-- Result record of a UI healing method or sub-strategy (all optional
fields beyond `success`, as the JS objects differ per path). `healed`
marks the with-page success paths that carry a healed-data spread. -/
structure UIResult where
  success : Bool
  error : Option String := none
  strategy : Option String := none
  changes : Option (List String) := none
  locator : Option String := none
  confidence : Option ℚ := none
  options : Option WaitOpts := none
  healed : Option TestData := none
  deriving Repr, DecidableEq

/-- Result of one live locator/wait/state/navigation sub-technique. -/
structure SubTry where
  success : Bool
  locator : Option String := none
  strategy : Option String := none
  confidence : Option ℚ := none
  options : Option WaitOpts := none
  state : Option String := none
  method : Option String := none
  url : Option String := none
  deriving Repr, DecidableEq

/-- The sub-technique loop shared by the four methods: first successful
outcome wins, failures and thrown exceptions are swallowed. -/
def firstOkSub (subs : List (Except String SubTry)) : Option SubTry :=
  subs.findSome? fun e =>
    match e with
    | .ok r => if r.success then some r else none
    | .error _ => none

/-- One AI-proposed locator. -/
structure AILoc where
  selector : String
  confidence : Option ℚ := none
  deriving Repr, DecidableEq

/-- JS `String.prototype.replace` with a string pattern: first
occurrence only. -/
def replaceFirst (s pat repl : String) : String :=
  go s.toList pat.toList repl.toList |>.asString
where
  go : List Char → List Char → List Char → List Char
    | [], _, _ => []
    | c :: rest, pl, rl =>
        if pl.isPrefixOf (c :: rest) then rl ++ (c :: rest).drop pl.length
        else c :: go rest pl rl

/-- `UIFealingStrategies.generateAlternativeSelectors` (lines 144-165):
variants keyed on the selector's first character. -/
def generateAlternativeSelectors (originalLocator : Option String) : List String :=
  if strTruthy originalLocator then
    let ol := originalLocator.getD ""
    if strStartsWith ol "#" then
      let id := strDrop ol 1
      ["[id=\"" ++ id ++ "\"]", "[data-testid=\"" ++ id ++ "\"]", "." ++ id]
    else if strStartsWith ol "." then
      let className := strDrop ol 1
      ["[class*=\"" ++ className ++ "\"]", "[data-class=\"" ++ className ++ "\"]"]
    else if strStartsWith ol "[" then
      [replaceFirst ol "=" "*="]
    else []
  else []

/-- `element?.locator || element?.selector` from `healLocatorIssue`:
the locator when present and non-empty, else the selector; absent
element gives absent locator. -/
def originalLocatorOf (element : Option JsElement) : Option String :=
  match element with
  | none => none
  | some e => if strTruthy e.locator then e.locator else e.selector

/-- The guarded AI branch of `tryBasicLocatorStrategies`: when AI
locator generation is enabled and the call returns a non-empty list, a
success result built from the first AI locator; in every other case
(disabled, thrown — the try/catch swallows it — or empty list) nothing.
In the shipped source the call `this.aiIntegration.generateLocators(...)`
names a method `AIIntegration` does not define, so it always throws a
TypeError and this branch always yields nothing; `aiGen` models the
call's outcome (`.error` for the as-shipped behavior). -/
def tryAIGenLocators (enableAILocatorGeneration : Bool)
    (aiGen : Except String (List AILoc)) : Option UIResult :=
  if enableAILocatorGeneration then
    match aiGen with
    | .ok (first :: _) =>
        some { success := true, locator := some first.selector,
               strategy := some "ai_generated",
               confidence := some (jsOrNum first.confidence 70) }
    | .ok [] => none
    | .error _ => none
  else none

/-- `UIFealingStrategies.tryBasicLocatorStrategies` (lines 90-139): the
no-page fallback. Success requires an AI locator or a generated
alternative selector; otherwise the fallback fails with
"No alternative locators found". -/
def tryBasicLocatorStrategies (enableAILocatorGeneration : Bool)
    (aiGen : Except String (List AILoc)) (originalLocator : Option String) :
    UIResult :=
  let alternatives := generateAlternativeSelectors originalLocator
  match tryAIGenLocators enableAILocatorGeneration aiGen with
  | some r => r
  | none =>
      match alternatives with
      | first :: _ =>
          { success := true, locator := some first,
            strategy := some "alternative_selector", confidence := some 60 }
      | [] =>
          { success := false, error := some "No alternative locators found",
            strategy := some "locator_healing" }

/-- `UIFealingStrategies.healLocatorIssue` (lines 27-85). Without a page
handle it returns the basic fallback's result directly; with one it runs
the five live locator sub-techniques in order. -/
def healLocatorIssue (enableAILocatorGeneration : Bool)
    (aiGen : Except String (List AILoc)) (subs : List (Except String SubTry))
    (testData : Option TestData) : UIResult :=
  let td := testData.getD {}
  let element := td.element
  let originalLocator := originalLocatorOf element
  if !td.page then
    tryBasicLocatorStrategies enableAILocatorGeneration aiGen originalLocator
  else
    match firstOkSub subs with
    | some r =>
        let newElement : JsElement :=
          { element.getD {} with locator := r.locator, selector := r.locator }
        { success := true,
          healed := some { td with element := some newElement },
          strategy := some "locator_healing",
          changes := some ["Updated locator from " ++ jsOrStr originalLocator "undefined"
            ++ " to " ++ jsOrStr r.locator "undefined"] }
    | none =>
        { success := false, error := some "All locator healing strategies failed",
          strategy := some "locator_healing" }

/-- `UIFealingStrategies.tryBasicWaitStrategies` (lines 226-246): always
succeeds with a fixed basic wait recipe. -/
def tryBasicWaitStrategies : UIResult :=
  { success := true, strategy := some "basic_wait",
    options := some { timeout := 5000, retries := 3, delay := 1000 },
    changes := some ["Applied basic wait strategy with 5s timeout"] }

/-- `UIFealingStrategies.healWaitIssue` (lines 170-221). -/
def healWaitIssue (subs : List (Except String SubTry))
    (testData : Option TestData) : UIResult :=
  let td := testData.getD {}
  if !td.page then
    tryBasicWaitStrategies
  else
    match firstOkSub subs with
    | some r =>
        { success := true, healed := some td, strategy := some "wait_healing",
          options := r.options,
          changes := some ["Applied " ++ jsOrStr r.strategy "undefined" ++ " wait strategy"] }
    | none =>
        { success := false, error := some "All wait healing strategies failed",
          strategy := some "wait_healing" }

/-- `UIFealingStrategies.healElementStateIssue` (lines 251-305): without
a page handle, a bare basic success. -/
def healElementStateIssue (subs : List (Except String SubTry))
    (testData : Option TestData) : UIResult :=
  let td := testData.getD {}
  if !td.page then
    { success := true, strategy := some "element_state_healing",
      changes := some ["Applied basic element state healing"] }
  else
    match firstOkSub subs with
    | some r =>
        { success := true, healed := some td,
          strategy := some "element_state_healing",
          changes := some ["Applied " ++ jsOrStr r.method "undefined" ++ " for element state"] }
    | none =>
        { success := false,
          error := some "All element state healing strategies failed",
          strategy := some "element_state_healing" }

/-- `UIFealingStrategies.healNavigationIssue` (lines 310-365): without a
page handle, a bare basic success. -/
def healNavigationIssue (subs : List (Except String SubTry))
    (testData : Option TestData) : UIResult :=
  let td := testData.getD {}
  if !td.page then
    { success := true, strategy := some "navigation_healing",
      changes := some ["Applied basic navigation healing"] }
  else
    match firstOkSub subs with
    | some r =>
        { success := true, healed := some { td with url := r.url },
          strategy := some "navigation_healing",
          changes := some ["Applied " ++ jsOrStr r.method "undefined" ++ " navigation strategy"] }
    | none =>
        { success := false,
          error := some "All navigation healing strategies failed",
          strategy := some "navigation_healing" }

/-! ## Claims -/

/-- C5: `classifyError` agrees everywhere with first-match-wins
evaluation of the priority-ordered table locator → wait → element_state
→ navigation → api → assertion → network → unknown (case-insensitive
substring matching); every message containing "timeout" that matches no
locator pattern classifies as wait_failure; and the classifier is a
total function into the eight classification values (pure, never
throws). -/
theorem claim5_classifier_order (msg : String) :
    classifyError msg = classifyFirstMatch msg ∧
    classifyError msg ∈ classificationValues ∧
    (includes (toLowerCase msg) "timeout" = true →
      includes (toLowerCase msg) "element not found" = false →
      includes (toLowerCase msg) "selector" = false →
      classifyError msg = "wait_failure") := by
  refine ⟨?_, ?_, ?_⟩
  · simp only [classifyError, classifyFirstMatch, firstMatch, classificationTable,
      List.any_cons, List.any_nil, Bool.or_false]
  · simp only [classifyError]
    split_ifs <;> simp [classificationValues]
  · intro h1 h2 h3
    simp only [classifyError]
    rw [h1, h2, h3]
    simp

/-- C5 witness: a concrete timeout message classifies as wait_failure. -/
theorem claim5_witness :
    classifyError "timeout exceeded while waiting" = "wait_failure" :=
  (claim5_classifier_order "timeout exceeded while waiting").2.2
    (by decide) (by decide) (by decide)

/-- Helper: when every healing cycle's `applyHealing` result fails (or a
cycle throws), the retry loop reports no success and calls
`analyzeError` once per configured attempt. -/
theorem attemptHealingAux_all_fail (cycles : Nat → CycleOutcome)
    (hfail : ∀ i r, cycles i = .applied r → r.success = false) :
    ∀ n a, (attemptHealingAux cycles a n).success = none ∧
      (attemptHealingAux cycles a n).analyzeCalls = n := by
  intro n
  induction n with
  | zero => intro a; exact ⟨rfl, rfl⟩
  | succ k ih =>
      intro a
      simp only [attemptHealingAux]
      cases h : cycles a with
      | analyzeThrow s => simpa using ih (a + 1)
      | applyThrow s => simpa using ih (a + 1)
      | applied r =>
          have hr : r.success = false := hfail a r h
          simpa [hr] using ih (a + 1)

/-- C1 counterexample: the error "unrelated syntax problem" matches no
allow-list substring (`isHealableError` is false), yet with healing
enabled `executeTest` still runs the orchestrator — here `analyzeError`
and `applyHealing` are each invoked 3 times (once per configured
attempt), refuting "without invoking the Healing Orchestrator at all".
(`isHealableError` is only used to wrap the error, never to gate
healing.) -/
theorem claim1_counterexample :
    isHealableError "unrelated syntax problem" = false ∧
    (executeTest (α := Unit) true 3 (fun _ => .applied { success := false })
        (.error "unrelated syntax problem") 5 {}).analyzeCalls = 3 ∧
    (executeTest (α := Unit) true 3 (fun _ => .applied { success := false })
        (.error "unrelated syntax problem") 5 {}).applyCalls = 3 ∧
    (3 : Nat) ≠ 0 := by
  refine ⟨by decide, rfl, rfl, by decide⟩

/-- C1 amended: with healing enabled, `executeTest` invokes the
orchestrator for every thrown test error — healable or not — running one
`analyzeError` per configured attempt; when no cycle produces a success
result, the caught error is re-thrown with its original message and the
`healedTests` metric is unchanged. -/
theorem claim1_amended {α : Type} (msg : String) (maxA : Nat)
    (cycles : Nat → CycleOutcome) (d : ℚ) (m : Metrics)
    (hfail : ∀ i r, cycles i = .applied r → r.success = false) :
    (executeTest (α := α) true maxA cycles (.error msg) d m).result = .thrown msg ∧
    (executeTest (α := α) true maxA cycles (.error msg) d m).metrics.healedTests =
      m.healedTests ∧
    (executeTest (α := α) true maxA cycles (.error msg) d m).analyzeCalls = maxA := by
  have h := attemptHealingAux_all_fail cycles hfail maxA 1
  simp only [executeTest, attemptHealing, h.1, updateMetrics]
  exact ⟨rfl, rfl, h.2⟩

/-- C1 witness: a healable error with two failing cycles — the
orchestrator runs twice, the original message is re-thrown, the metric
stays 0. -/
theorem claim1_witness :
    (executeTest (α := Unit) true 2 (fun _ => .applied { success := false })
        (.error "element not found") 7 {}).result = .thrown "element not found" ∧
    (executeTest (α := Unit) true 2 (fun _ => .applied { success := false })
        (.error "element not found") 7 {}).metrics.healedTests = 0 ∧
    (executeTest (α := Unit) true 2 (fun _ => .applied { success := false })
        (.error "element not found") 7 {}).analyzeCalls = 2 :=
  claim1_amended "element not found" 2 _ 7 {}
    (fun _ r h => by cases h; rfl)

/-- C2 counterexample: the throw case and the unparseable-output case are
not treated identically, and the throw case does not fall back to the
generic candidate set: when `callAI` throws, `generateHealingStrategies`
returns `[]`, while an unparseable response with no pattern match (e.g.
"gibberish") yields the non-empty generic fallback (locator_healing and
wait_healing, confidence 60). -/
theorem claim2_counterexample :
    generateHealingStrategies (.error "AI provider not available") [] {} = [] ∧
    parseHealingStrategies .fail "gibberish" = genericFallback ∧
    genericFallback ≠ ([] : List Strategy) := by
  refine ⟨rfl, by decide, by decide⟩

/-- C2 amended: generation degrades without propagating, but the two
failure modes differ: a collaborator throw makes
`generateHealingStrategies` return `[]`, while unparseable output with
no strategy-pattern regex match falls back to the fixed generic set
(locator_healing and wait_healing, confidence 60 each); in the throw
case `analyzeError` still returns a normal
`{errorType, context, strategies, timestamp}` object whose strategies
are the ranked pattern-sourced list only (it is a total function, so it
never throws). -/
theorem claim2_amended (e : String) (ld : List LearnEntry) (c : JsCtx)
    (hostname : String → Option String) (errMsg : String) (rawCtx : JsCtx)
    (now : Nat) (st : EngineState) (text : String)
    (hnomatch : ∀ pat ∈ strategyPatterns, regexTest pat.1 pat.2 text = false) :
    generateHealingStrategies (.error e) ld c = [] ∧
    parseHealingStrategies .fail text = genericFallback ∧
    analyzeError hostname (.error e) ld errMsg rawCtx now st =
      { errorType := classifyError errMsg,
        context := extractContextData rawCtx now,
        strategies := rankStrategies st
          (getPatternBasedStrategies hostname (classifyError errMsg)
            (extractContextData rawCtx now) st.patterns) rawCtx,
        timestamp := now } := by
  refine ⟨rfl, ?_, ?_⟩
  · have h1 := hnomatch ("locator", "healing") (by simp [strategyPatterns])
    have h2 := hnomatch ("wait", "strategy") (by simp [strategyPatterns])
    have h3 := hnomatch ("element", "state") (by simp [strategyPatterns])
    have h4 := hnomatch ("navigation", "healing") (by simp [strategyPatterns])
    have h5 := hnomatch ("data", "adjustment") (by simp [strategyPatterns])
    simp [parseHealingStrategies, strategyPatterns, h1, h2, h3, h4, h5]
  · simp [analyzeError, generateHealingStrategies]

/-- C2 witness: concrete unparseable text with no pattern match. -/
theorem claim2_witness :
    generateHealingStrategies (.error "network down") [] {} = [] ∧
    parseHealingStrategies .fail "hello world" = genericFallback ∧
    analyzeError (fun _ => none) (.error "network down") [] "element not found"
      {} 42 {} =
      { errorType := classifyError "element not found",
        context := extractContextData {} 42,
        strategies := rankStrategies {}
          (getPatternBasedStrategies (fun _ => none) (classifyError "element not found")
            (extractContextData {} 42) ([] : List (String × Pattern))) {},
        timestamp := 42 } :=
  claim2_amended "network down" [] {} (fun _ => none) "element not found" {} 42 {}
    "hello world" (by decide)

/-- The score formula exactly as claim C3 words it: raw confidence plus
30 x historical rate (0.5 when the name is absent) plus 20 x context
similarity, clamped to the interval [0, 100]. -/
def claimScore (st : EngineState) (s : Strategy) (c : JsCtx) : ℚ :=
  let raw := s.confidence.getD 0 +
    ((mapGet st.successRates s.strategy).getD 0.5) * 30 +
    (if st.healingHistory.any (fun e =>
        (e.context.bind (·.testType)) == c.testType &&
        (e.context.bind (·.pageUrl)) == c.pageUrl) then (0.8 : ℚ) else 0.3) * 20
  min 100 (max 0 raw)

/-- The amended score formula: confidence defaults to 50 when missing or
0 (JS `confidence || 50`), the historical rate defaults to 0.5 when
missing or 0 (JS `get(..) || 0.5`), and the sum is clamped from above at
100 only (`Math.min(100, score)`, no lower clamp). -/
def amendedScore (st : EngineState) (s : Strategy) (c : JsCtx) : ℚ :=
  let conf :=
    match s.confidence with
    | none => 50
    | some v => if v = 0 then 50 else v
  let rate :=
    match mapGet st.successRates s.strategy with
    | none => 0.5
    | some r => if r = 0 then 0.5 else r
  let sim :=
    if st.healingHistory.any (fun e =>
        (e.context.bind (·.testType)) == c.testType &&
        (e.context.bind (·.pageUrl)) == c.pageUrl) then (0.8 : ℚ)
    else 0.3
  min 100 (conf + rate * 30 + sim * 20)

/-- C3 counterexample: a candidate with confidence 0 (within the data
model's 0-100 range) on a fresh engine: the claim's formula gives
0 + 0.5 x 30 + 0.3 x 20 = 21, but the code treats confidence 0 as falsy
and scores 50 + 15 + 6 = 71. -/
theorem claim3_counterexample :
    calculateStrategyScore {} { strategy := "locator_healing", confidence := some 0 } {} = 71 ∧
    claimScore {} { strategy := "locator_healing", confidence := some 0 } {} = 21 ∧
    (71 : ℚ) ≠ 21 := by
  refine ⟨?_, ?_, by norm_num⟩ <;>
    simp [calculateStrategyScore, claimScore, jsOrNum, mapGet,
      calculateContextSimilarity] <;> norm_num

/-- Stable-sort stability, phrased through filters: elements tied under
the sort key keep their relative order, so filtering the sorted list by
any property that forces ties returns the filtered input unchanged. -/
theorem filter_mergeSort_of_tied {α : Type} (le : α → α → Bool)
    (htrans : ∀ a b c, le a b = true → le b c = true → le a c = true)
    (htotal : ∀ a b, (le a b || le b a) = true)
    (l : List α) (p : α → Bool)
    (hp : ∀ a b, p a = true → p b = true → le a b = true) :
    (l.mergeSort le).filter p = l.filter p := by
  have hsub : (l.filter p).Sublist l := List.filter_sublist l
  have hpair : (l.filter p).Pairwise (fun a b => le a b = true) :=
    List.pairwise_of_forall_mem_list fun a ha b hb =>
      hp a b (List.mem_filter.mp ha).2 (List.mem_filter.mp hb).2
  have hstable : (l.filter p).Sublist (l.mergeSort le) :=
    List.sublist_mergeSort htrans htotal hpair hsub
  have hself : (l.filter p).filter p = l.filter p :=
    List.filter_eq_self.mpr fun a ha => (List.mem_filter.mp ha).2
  have hsub2 : (l.filter p).Sublist ((l.mergeSort le).filter p) := by
    have := hstable.filter p
    rwa [hself] at this
  have hperm : ((l.mergeSort le).filter p).Perm (l.filter p) :=
    (List.mergeSort_perm l le).filter p
  exact (hsub2.eq_of_length hperm.length_eq.symm).symm

/-- `scoreLE` is transitive. -/
theorem scoreLE_trans : ∀ a b c : Strategy,
    scoreLE a b = true → scoreLE b c = true → scoreLE a c = true := by
  intro a b c hab hbc
  simp only [scoreLE, decide_eq_true_eq] at *
  exact le_trans hbc hab

/-- `scoreLE` is total. -/
theorem scoreLE_total : ∀ a b : Strategy, (scoreLE a b || scoreLE b a) = true := by
  intro a b
  simp only [scoreLE, Bool.or_eq_true, decide_eq_true_eq]
  exact le_total _ _

/-- C3 amended: the ranking score is `amendedScore` — confidence
defaulting to 50 when 0 or absent, historical rate defaulting to 0.5
when 0 or absent, similarity 0.8 on a testType+pageUrl history match
else 0.3, upper clamp at 100 only — and `rankStrategies` returns a
permutation of the scored candidates, sorted descending by score, with
ties keeping generation order (any equal-score fiber is filtered out of
the result in generation order). -/
theorem claim3_amended (st : EngineState) (strategies : List Strategy) (c : JsCtx) :
    (∀ s, calculateStrategyScore st s c = amendedScore st s c) ∧
    (rankStrategies st strategies c).Pairwise
      (fun a b => b.score.getD 0 ≤ a.score.getD 0) ∧
    (rankStrategies st strategies c).Perm
      (strategies.map (fun s => { s with score := some (calculateStrategyScore st s c) })) ∧
    (∀ v : ℚ, (rankStrategies st strategies c).filter (fun s => s.score == some v) =
      (strategies.map (fun s => { s with score := some (calculateStrategyScore st s c) })).filter
        (fun s => s.score == some v)) := by
  refine ⟨?_, ?_, ?_, ?_⟩
  · intro s
    simp only [calculateStrategyScore, amendedScore, jsOrNum, calculateContextSimilarity]
  · have := List.sorted_mergeSort scoreLE_trans scoreLE_total
      (strategies.map (fun s => { s with score := some (calculateStrategyScore st s c) }))
    exact this.imp fun h => by simpa [scoreLE, decide_eq_true_eq] using h
  · exact List.mergeSort_perm _ _
  · intro v
    refine filter_mergeSort_of_tied scoreLE scoreLE_trans scoreLE_total _ _ ?_
    intro a b ha hb
    simp only [beq_iff_eq] at ha hb
    simp [scoreLE, ha, hb]

/-- Helper: when no strategy in the list succeeds, the loop falls
through and every strategy is invoked, in order. -/
theorem applyHealingGo_all_fail (exec : Strategy → Except String StratResult)
    (now : Nat) (st : EngineState) :
    ∀ l, (∀ s ∈ l, execSucceeds exec s = false) →
      applyHealingGo exec now st l = (none, l) := by
  intro l
  induction l with
  | nil => intro _; rfl
  | cons s rest ih =>
      intro h
      have hs := h s (by simp)
      have hrest := ih fun x hx => h x (by simp [hx])
      simp only [applyHealingGo]
      cases he : exec s with
      | error m => simp [hrest]
      | ok r =>
          have hr : r.success = false := by simpa [execSucceeds, he] using hs
          simp [hr, hrest]

/-- Helper: the first succeeding strategy stops the loop — everything
before it is invoked and fails, it is invoked, recorded and returned,
and nothing after it is invoked. -/
theorem applyHealingGo_first_success (exec : Strategy → Except String StratResult)
    (now : Nat) (st : EngineState) (s : Strategy) (r : StratResult)
    (hs : exec s = .ok r) (hr : r.success = true) :
    ∀ pre rest, (∀ x ∈ pre, execSucceeds exec x = false) →
      applyHealingGo exec now st (pre ++ s :: rest) =
        (some (r, recordSuccessfulHealing s r now st), pre ++ [s]) := by
  intro pre
  induction pre with
  | nil => intro rest _; simp [applyHealingGo, hs, hr]
  | cons x xs ih =>
      intro rest h
      have hx := h x (by simp)
      have hxs := ih rest fun y hy => h y (by simp [hy])
      simp only [List.cons_append, applyHealingGo]
      cases he : exec x with
      | error m => simp [hxs]
      | ok rr =>
          have hrr : rr.success = false := by simpa [execSucceeds, he] using hx
          simp [hrr, hxs]

/-- Helper: if the loop produced a success pair, its result has
`success: true`. -/
theorem applyHealingGo_some_success (exec : Strategy → Except String StratResult)
    (now : Nat) (st : EngineState) :
    ∀ l r st2, (applyHealingGo exec now st l).1 = some (r, st2) →
      r.success = true := by
  intro l
  induction l with
  | nil => intro r st2 h; simp [applyHealingGo] at h
  | cons s rest ih =>
      intro r st2 h
      cases he : exec s with
      | error m =>
          simp only [applyHealingGo, he] at h
          exact ih r st2 h
      | ok rr =>
          by_cases hrr : rr.success = true
          · simp only [applyHealingGo, he, hrr, if_true] at h
            obtain ⟨h1, _⟩ := Prod.mk.injEq .. ▸ (Option.some.injEq .. ▸ h)
            exact h1 ▸ hrr
          · simp only [applyHealingGo, he, hrr, if_false] at h
            exact ih r st2 h

/-- Helper: a failed overall healing attempt leaves the engine state
untouched. -/
theorem applyHealing_failed_state_eq (exec : Strategy → Except String StratResult)
    (now : Nat) (l : List Strategy) (st : EngineState)
    (h : (applyHealing exec now l st).1.success = false) :
    (applyHealing exec now l st).2.1 = st := by
  rcases hgo : applyHealingGo exec now st l with ⟨o, att⟩
  cases o with
  | some p =>
      obtain ⟨r, st2⟩ := p
      have hsucc : r.success = true :=
        applyHealingGo_some_success exec now st l r st2 (by rw [hgo])
      have hres : (applyHealing exec now l st).1 = r := by
        simp [applyHealing, hgo]
      rw [hres, hsucc] at h
      cases h
  | none => simp [applyHealing, hgo]

/-- C4: `applyHealing` invokes strategies in rank order and stops at the
first success: writing the ranked list as `pre ++ s :: rest` with every
strategy in `pre` failing and `s` succeeding with result `r`, exactly
`pre ++ [s]` are invoked (index of first success plus one), the learning
update is recorded, and `r` itself is returned immediately — `rest`
is never invoked; when no strategy succeeds, the whole list is
invoked. -/
theorem claim4_first_success_stops (exec : Strategy → Except String StratResult)
    (now : Nat) (st : EngineState) :
    (∀ pre s rest r, (∀ x ∈ pre, execSucceeds exec x = false) →
      exec s = .ok r → r.success = true →
      applyHealing exec now (pre ++ s :: rest) st =
        (r, recordSuccessfulHealing s r now st, pre ++ [s])) ∧
    (∀ l, (∀ x ∈ l, execSucceeds exec x = false) →
      (applyHealing exec now l st).2.2 = l ∧
      (applyHealing exec now l st).1.success = false) := by
  constructor
  · intro pre s rest r hpre hs hr
    have := applyHealingGo_first_success exec now st s r hs hr pre rest hpre
    simp [applyHealing, this]
  · intro l hl
    have := applyHealingGo_all_fail exec now st l hl
    simp [applyHealing, this]

/-- C4 witness: three strategies where the second succeeds — only the
first two are invoked, the learning update is recorded, the second's
result is returned. -/
theorem claim4_witness :
    applyHealing
      (fun s => if s.strategy = "wait_healing" then .ok { success := true }
                else .ok { success := false })
      0
      [{ strategy := "locator_healing" }, { strategy := "wait_healing" },
       { strategy := "navigation_healing" }] {} =
      ({ success := true },
       recordSuccessfulHealing { strategy := "wait_healing" } { success := true } 0 {},
       [{ strategy := "locator_healing" }, { strategy := "wait_healing" }]) :=
  (claim4_first_success_stops _ 0 {}).1
    [{ strategy := "locator_healing" }] { strategy := "wait_healing" }
    [{ strategy := "navigation_healing" }] { success := true }
    (by intro x hx; simp at hx; subst hx; rfl) rfl rfl

/-- C6: when every ranked strategy fails — whether by returning a
failure result or by throwing (caught, loop continues) — `applyHealing`
returns the all-failed result whose `strategies` field lists each
attempted strategy's name exactly once, in attempted order, and the
attempted strategies are exactly the whole ranked list. -/
theorem claim6_all_failed (exec : Strategy → Except String StratResult)
    (now : Nat) (st : EngineState) (l : List Strategy)
    (hfail : ∀ x ∈ l, execSucceeds exec x = false) :
    (applyHealing exec now l st).1 =
      { success := false, error := some "All healing strategies failed",
        strategies := some (l.map (·.strategy)) } ∧
    (applyHealing exec now l st).2.2 = l ∧
    (applyHealing exec now l st).1.strategies =
      some (((applyHealing exec now l st).2.2).map (·.strategy)) := by
  have := applyHealingGo_all_fail exec now st l hfail
  refine ⟨by simp [applyHealing, this], by simp [applyHealing, this],
    by simp [applyHealing, this]⟩

/-- C6 witness: one strategy fails by result, one fails by throwing —
the returned object names both, in order. -/
theorem claim6_witness :
    (applyHealing
      (fun s => if s.strategy = "wait_healing" then .error "strategy blew up"
                else .ok { success := false })
      0 [{ strategy := "locator_healing" }, { strategy := "wait_healing" }] {}).1 =
      { success := false, error := some "All healing strategies failed",
        strategies := some ["locator_healing", "wait_healing"] } :=
  (claim6_all_failed _ 0 {} _
    (by intro x hx; simp at hx
        rcases hx with h | h <;> subst h <;> rfl)).1

/-- C10 (implicit): whenever `applyHealing` returns an overall failure,
the learning state — healing history, pattern table, success-rate
table — is exactly what it was before the call: learning mutates only
through `recordSuccessfulHealing` on the first-success path. -/
theorem claim10_failed_attempt_atomic (exec : Strategy → Except String StratResult)
    (now : Nat) (l : List Strategy) (st : EngineState)
    (h : (applyHealing exec now l st).1.success = false) :
    (applyHealing exec now l st).2.1 = st :=
  applyHealing_failed_state_eq exec now l st h

/-- C10 witness: a concrete failed attempt over a non-empty state leaves
its history, patterns and rates untouched. -/
theorem claim10_witness :
    (applyHealing (fun _ => .ok { success := false }) 9
      [{ strategy := "locator_healing" }]
      { healingHistory := [{ timestamp := 1, strategy := "wait_healing", success := true }],
        patterns := [], successRates := [("wait_healing", 0.75)] }).2.1 =
      { healingHistory := [{ timestamp := 1, strategy := "wait_healing", success := true }],
        patterns := [], successRates := [("wait_healing", 0.75)] } :=
  claim10_failed_attempt_atomic _ 9 _ _ rfl

/-- `get` after `set` on the same key. -/
theorem mapGet_mapSet_self {α : Type} (m : List (String × α)) (k : String) (v : α) :
    mapGet (mapSet m k v) k = some v := by
  induction m with
  | nil => simp [mapSet, mapGet, List.find?]
  | cons kv rest ih =>
      by_cases h : kv.1 == k
      · simp [mapSet, h, mapGet, List.find?]
      · simp only [mapSet, h, if_false]
        simpa [mapGet, List.find?, h] using ih

/-- C7: `recordSuccessfulHealing` updates both learning tables by their
distinct rules. For a fresh strategy name, two calls leave the pattern
entry at successCount 2, totalCount 2, successRate 1; the smoothed rate
goes 0.5 → 0.75 after the first call and 0.75 → 0.875 after the second
(halfway-to-1 rule); and no success-rate update happens on a failed
healing attempt (`applyHealing` overall failure leaves the table as it
was). -/
theorem claim7_learning_updates (strat : Strategy) (res : StratResult)
    (t1 t2 : Nat) (st : EngineState)
    (hp : mapGet st.patterns strat.strategy = none)
    (hr : mapGet st.successRates strat.strategy = none) :
    ((mapGet (recordSuccessfulHealing strat res t2
        (recordSuccessfulHealing strat res t1 st)).patterns strat.strategy).map
      (fun p => (p.successCount, p.totalCount, p.successRate))) = some (2, 2, 1) ∧
    mapGet (recordSuccessfulHealing strat res t1 st).successRates strat.strategy =
      some 0.75 ∧
    mapGet (recordSuccessfulHealing strat res t2
        (recordSuccessfulHealing strat res t1 st)).successRates strat.strategy =
      some 0.875 ∧
    (∀ exec now l st0, (applyHealing exec now l st0).1.success = false →
      (applyHealing exec now l st0).2.1.successRates = st0.successRates) := by
  refine ⟨?_, ?_, ?_, ?_⟩
  · simp only [recordSuccessfulHealing, updatePatterns, mapHas, hp, hr,
      Option.isSome_none, Bool.false_eq_true, if_false, mapGet_mapSet_self,
      Option.isSome_some, if_true, jsOrNum]
    norm_num
  · simp only [recordSuccessfulHealing, hr, jsOrNum, mapGet_mapSet_self]
    norm_num
  · simp only [recordSuccessfulHealing, hr, jsOrNum, mapGet_mapSet_self]
    norm_num
  · intro exec now l st0 h
    rw [applyHealing_failed_state_eq exec now l st0 h]

/-- C7 witness: concrete double success for a fresh name on an empty
engine. -/
theorem claim7_witness :
    ((mapGet (recordSuccessfulHealing { strategy := "locator_healing" }
        { success := true } 2
        (recordSuccessfulHealing { strategy := "locator_healing" }
          { success := true } 1 {})).patterns "locator_healing").map
      (fun p => (p.successCount, p.totalCount, p.successRate))) = some (2, 2, 1) ∧
    mapGet (recordSuccessfulHealing { strategy := "locator_healing" }
        { success := true } 1 {}).successRates "locator_healing" = some 0.75 ∧
    mapGet (recordSuccessfulHealing { strategy := "locator_healing" }
        { success := true } 2
        (recordSuccessfulHealing { strategy := "locator_healing" }
          { success := true } 1 {})).successRates "locator_healing" = some 0.875 ∧
    (∀ exec now l st0, (applyHealing exec now l st0).1.success = false →
      (applyHealing exec now l st0).2.1.successRates = st0.successRates) :=
  claim7_learning_updates { strategy := "locator_healing" } { success := true }
    1 2 {} rfl rfl

/-- `set` of an absent key appends. -/
theorem mapSet_eq_append_of_not_mem {α : Type} (m : List (String × α))
    (k : String) (v : α) (h : ∀ kv ∈ m, kv.1 ≠ k) :
    mapSet m k v = m ++ [(k, v)] := by
  induction m with
  | nil => rfl
  | cons kv rest ih =>
      have hk : kv.1 ≠ k := h kv (by simp)
      have : (kv.1 == k) = false := by simpa using hk
      simp [mapSet, this, ih fun y hy => h y (by simp [hy])]

/-- Inserting entries with fresh, pairwise-distinct keys into a map
appends them in order. -/
theorem foldl_mapSet_append {α : Type} :
    ∀ (entries m : List (String × α)),
      (∀ kv ∈ entries, ∀ kv2 ∈ m, kv2.1 ≠ kv.1) →
      (entries.map Prod.fst).Nodup →
      entries.foldl (fun acc kv => mapSet acc kv.1 kv.2) m = m ++ entries := by
  intro entries
  induction entries with
  | nil => intro m _ _; simp
  | cons kv rest ih =>
      intro m hdisj hnodup
      simp only [List.foldl_cons]
      have h1 : mapSet m kv.1 kv.2 = m ++ [(kv.1, kv.2)] :=
        mapSet_eq_append_of_not_mem m kv.1 kv.2 fun y hy => hdisj kv (by simp) y hy
      rw [h1, ih (m ++ [(kv.1, kv.2)]) ?_ ?_]
      · simp
      · intro x hx y hy
        rcases List.mem_append.mp hy with hym | hyk
        · exact hdisj x (by simp [hx]) y hym
        · simp at hyk
          subst hyk
          simp only [List.map_cons, List.nodup_cons] at hnodup
          intro hcontra
          exact hnodup.1 (hcontra ▸ List.mem_map_of_mem Prod.fst hx)
      · simp only [List.map_cons, List.nodup_cons] at hnodup
        exact hnodup.2

/-- `new Map(entries)` over entries with pairwise-distinct keys returns
them unchanged. -/
theorem jsMapOfEntries_eq_self {α : Type} (entries : List (String × α))
    (h : (entries.map Prod.fst).Nodup) : jsMapOfEntries entries = entries := by
  have := foldl_mapSet_append entries [] (by simp) h
  simpa [jsMapOfEntries] using this

/-- C9: persisting the in-memory store and reloading the persisted
record restores the pattern and success-rate maps exactly and the
healing history truncated to its most recent 1000 entries, regardless
of the state being loaded into. -/
theorem claim9_roundtrip (st st2 : EngineState) (now : Nat)
    (hp : (st.patterns.map Prod.fst).Nodup)
    (hr : (st.successRates.map Prod.fst).Nodup) :
    loadHealingPatterns (saveHealingPatterns st now) st2 =
      { healingHistory := st.healingHistory.drop (st.healingHistory.length - 1000),
        patterns := st.patterns,
        successRates := st.successRates } := by
  simp [loadHealingPatterns, saveHealingPatterns,
    jsMapOfEntries_eq_self st.patterns hp,
    jsMapOfEntries_eq_self st.successRates hr]

/-- C9 witness: a concrete small store (fewer than 1000 history entries,
so truncation is the identity) round-trips exactly. -/
theorem claim9_witness :
    loadHealingPatterns
      (saveHealingPatterns
        { healingHistory := [{ timestamp := 3, strategy := "wait_healing", success := true }],
          patterns := [("wait_healing",
            { name := "wait_healing", successCount := 1, totalCount := 2, successRate := 0.5 })],
          successRates := [("wait_healing", 0.75), ("locator_healing", 0.875)] } 77)
      {} =
      { healingHistory := [{ timestamp := 3, strategy := "wait_healing", success := true }],
        patterns := [("wait_healing",
          { name := "wait_healing", successCount := 1, totalCount := 2, successRate := 0.5 })],
        successRates := [("wait_healing", 0.75), ("locator_healing", 0.875)] } :=
  claim9_roundtrip _ {} 77 (by decide) (by decide)

/-- C8 counterexample: with no live page handle, an element whose
locator "foo" admits no alternative-selector variant (it starts with
none of `#`, `.`, `[`) and whose AI locator call throws (in the shipped
source that call always throws — `generateLocators` does not exist on
`AIIntegration`), `healLocatorIssue` returns `success: false`, refuting
"still returns a result with success:true" for the locator method. -/
theorem claim8_counterexample :
    (healLocatorIssue true
      (.error "this.aiIntegration.generateLocators is not a function") []
      (some { page := false, element := some { locator := some "foo" } })).success
      = false ∧
    (healLocatorIssue true
      (.error "this.aiIntegration.generateLocators is not a function") []
      (some { page := false, element := some { locator := some "foo" } })).error
      = some "No alternative locators found" := by
  exact ⟨by decide, by decide⟩

/-- C8 amended: with no live page handle, the wait, element-state and
navigation methods do short-circuit to basic fallbacks reporting
`success: true` with a minimal generic change description; the locator
method instead returns the result of `tryBasicLocatorStrategies`, which
succeeds (with a locator, not a change description) only when the AI
branch yields a locator or an alternative selector can be generated
from the original one, and otherwise fails with
"No alternative locators found". -/
theorem claim8_amended (subsL subsW subsE subsN : List (Except String SubTry))
    (td : TestData) (enableAI : Bool) (aiGen : Except String (List AILoc))
    (hpage : td.page = false) :
    healWaitIssue subsW (some td) = tryBasicWaitStrategies ∧
    (healWaitIssue subsW (some td)).success = true ∧
    (healWaitIssue subsW (some td)).changes =
      some ["Applied basic wait strategy with 5s timeout"] ∧
    healElementStateIssue subsE (some td) =
      { success := true, strategy := some "element_state_healing",
        changes := some ["Applied basic element state healing"] } ∧
    healNavigationIssue subsN (some td) =
      { success := true, strategy := some "navigation_healing",
        changes := some ["Applied basic navigation healing"] } ∧
    healLocatorIssue enableAI aiGen subsL (some td) =
      tryBasicLocatorStrategies enableAI aiGen (originalLocatorOf td.element) ∧
    (∀ r, tryAIGenLocators enableAI aiGen = some r →
      healLocatorIssue enableAI aiGen subsL (some td) = r) ∧
    (∀ alt alts, tryAIGenLocators enableAI aiGen = none →
      generateAlternativeSelectors (originalLocatorOf td.element) = alt :: alts →
      healLocatorIssue enableAI aiGen subsL (some td) =
        { success := true, locator := some alt,
          strategy := some "alternative_selector", confidence := some 60 }) ∧
    (tryAIGenLocators enableAI aiGen = none →
      generateAlternativeSelectors (originalLocatorOf td.element) = [] →
      healLocatorIssue enableAI aiGen subsL (some td) =
        { success := false, error := some "No alternative locators found",
          strategy := some "locator_healing" }) := by
  refine ⟨?_, ?_, ?_, ?_, ?_, ?_, ?_, ?_, ?_⟩
  · simp [healWaitIssue, hpage]
  · simp [healWaitIssue, hpage, tryBasicWaitStrategies]
  · simp [healWaitIssue, hpage, tryBasicWaitStrategies]
  · simp [healElementStateIssue, hpage]
  · simp [healNavigationIssue, hpage]
  · simp [healLocatorIssue, hpage]
  · intro r hai
    simp [healLocatorIssue, hpage, tryBasicLocatorStrategies, hai]
  · intro alt alts hai halts
    simp [healLocatorIssue, hpage, tryBasicLocatorStrategies, hai, halts]
  · intro hai halts
    simp [healLocatorIssue, hpage, tryBasicLocatorStrategies, hai, halts]

/-- C8 witness: a page-less test-data payload with an id selector — the
three basic fallbacks succeed, and the locator fallback succeeds through
an alternative selector derived from `#login`. -/
theorem claim8_witness :
    (healWaitIssue [] (some { page := false })).success = true ∧
    healElementStateIssue [] (some { page := false }) =
      { success := true, strategy := some "element_state_healing",
        changes := some ["Applied basic element state healing"] } ∧
    healLocatorIssue false (.error "no client") []
      (some { page := false, element := some { locator := some "#login" } }) =
      { success := true, locator := some "[id=\"login\"]",
        strategy := some "alternative_selector", confidence := some 60 } :=
  ⟨(claim8_amended [] [] [] [] { page := false } false (.error "no client") rfl).2.1,
   (claim8_amended [] [] [] [] { page := false } false (.error "no client") rfl).2.2.2.1,
   (claim8_amended [] [] [] []
      { page := false, element := some { locator := some "#login" } }
      false (.error "no client") rfl).2.2.2.2.2.2.2.1
     "[id=\"login\"]" ["[data-testid=\"login\"]", ".login"] rfl (by decide)⟩

end SelfHealing
